import Mathlib

/-!
Shallow embedding of the langflow front-end fragments under verification:
the chat send-button wrapper (`ButtonSendWrapper`), the flows-list query
hook (`addQueryParams`, `useGetRefreshFlows`), the folder mutations
(`addFoldersFn`, `handleDeleteFolder`), the node status display
(`NodeStatus`), and the slider parameter widget (`SliderComponent`).
Pure rendering conditions become Boolean functions, store mutations become
explicit state passing on record types, and fallible network requests
become a `ReqResult` sum consumed by the handler models.
-/

namespace Langflow

/-! ## Chat send button (ButtonSendWrapper) -/

/-- A file attached to the chat input.  `ButtonSendWrapper` consults only the
`loading` flag of each file (`files.some((file) => file.loading)`); the other
fields of `FilePreviewType` do not influence the button, so only `loading` is
carried here. -/
structure FilePreview where
  loading : Bool
  deriving DecidableEq, Repr

/-- The props of `ButtonSendWrapper` that determine its rendering conditions
and click behaviour: `send`, being a callback, is represented by the
`ClickAction.send` outcome instead. -/
structure ButtonSendProps where
  lockChat : Bool
  noInput : Bool
  chatValue : String
  files : List FilePreview
  deriving DecidableEq, Repr

/-- The file-loading scan `files.some((file) => file.loading)`. -/
def anyLoading (files : List FilePreview) : Bool :=
  files.any (fun file => file.loading)

/-- Condition for the stop icon:
`lockChat || files.some((file) => file.loading)`. -/
def showStopButton (p : ButtonSendProps) : Bool :=
  p.lockChat || anyLoading p.files

/-- Condition for the play icon: `!lockChat && noInput`. -/
def showPlayButton (p : ButtonSendProps) : Bool :=
  !p.lockChat && p.noInput

/-- Condition for the send icon:
`!(lockChat || files.some((file) => file.loading)) && !noInput`. -/
def showSendButton (p : ButtonSendProps) : Bool :=
  !(p.lockChat || anyLoading p.files) && !p.noInput

/-- The three icons the button can contain. -/
inductive ChatIcon where
  | square
  | zap
  | lucideSend
  deriving DecidableEq, Repr

/-- Icons rendered by the three `Case` blocks of the button body, in source
order: `Case` renders its children exactly when its `condition` prop holds. -/
def renderedIcons (p : ButtonSendProps) : List ChatIcon :=
  (if showStopButton p then [ChatIcon.square] else []) ++
    (if showPlayButton p then [ChatIcon.zap] else []) ++
      (if showSendButton p then [ChatIcon.lucideSend] else [])

/-- Outcome of one invocation of `handleClick`. -/
inductive ClickAction where
  | send
  | stopBuilding
  | noop
  deriving DecidableEq, Repr

/-- The click handler of the send button:
if `!showStopButton` it calls `send()`; otherwise, if a build is in progress
(`showStopButton && isBuilding`), it calls `stopBuilding()`; otherwise it
returns without doing anything. -/
def handleClick (p : ButtonSendProps) (isBuilding : Bool) : ClickAction :=
  if !(showStopButton p) then ClickAction.send
  else if showStopButton p && isBuilding then ClickAction.stopBuilding
  else ClickAction.noop

/-! ## Flows list query parameters (addQueryParams) -/

/-- `GetFlowsParams` from the flows query hook.  Optional TypeScript fields
are `Option`; `page` and `size` are integers in the API, so they are `Int`
here. -/
structure GetFlowsParams where
  components_only : Option Bool
  get_all : Option Bool
  header_flows : Option Bool
  folder_id : Option String
  remove_example_flows : Option Bool
  page : Option Int
  size : Option Int
  deriving DecidableEq, Repr

/-- Truthiness of an optional boolean field: `undefined` and `false` are
falsy. -/
def truthyBool : Option Bool → Bool
  | some b => b
  | none => false

/-- Truthiness of an optional string field: `undefined` and the empty string
are falsy. -/
def truthyStr : Option String → Bool
  | some s => decide (s ≠ "")
  | none => false

/-- Truthiness of an optional numeric field: `undefined` and `0` are falsy. -/
def truthyNum : Option Int → Bool
  | some n => decide (n ≠ 0)
  | none => false

/-- The key/value pairs appended to the `URLSearchParams` by
`addQueryParams`, one conditional `append` per field, in source order.
Percent-encoding of values is omitted: the claim concerns which keys are
appended, and every literal value appended by the source is encoding-free. -/
def addQueryParamsPairs (params : GetFlowsParams) : List (String × String) :=
  (if truthyBool params.components_only then [("components_only", "true")] else []) ++
    (if truthyBool params.get_all then [("get_all", "true")] else []) ++
      (if truthyBool params.header_flows then [("header_flows", "true")] else []) ++
        (if truthyStr params.folder_id then [("folder_id", params.folder_id.getD "")] else []) ++
          (if truthyBool params.remove_example_flows then [("remove_example_flows", "true")] else []) ++
            (if truthyNum params.page then [("page", toString (params.page.getD 0))] else []) ++
              (if truthyNum params.size then [("size", toString (params.size.getD 0))] else [])

/-- `URLSearchParams.toString()`: the pairs rendered `key=value` and joined
with `&`. -/
def queryPairsToString (pairs : List (String × String)) : String :=
  String.intercalate "&" (pairs.map (fun kv => kv.1 ++ "=" ++ kv.2))

/-- `addQueryParams`: appends `?` and the query string to the URL when the
query string is nonempty, and returns the URL unchanged otherwise. -/
def addQueryParams (url : String) (params : GetFlowsParams) : String :=
  let queryString := queryPairsToString (addQueryParamsPairs params)
  if queryString = "" then url else url ++ "?" ++ queryString

/-- The keys appended for a given `GetFlowsParams`. -/
def paramKeys (params : GetFlowsParams) : List String :=
  (addQueryParamsPairs params).map Prod.fst

/-- All seven fields falsy: no query parameter is appended. -/
def noTruthyField (params : GetFlowsParams) : Bool :=
  !truthyBool params.components_only && !truthyBool params.get_all &&
    !truthyBool params.header_flows && !truthyStr params.folder_id &&
      !truthyBool params.remove_example_flows && !truthyNum params.page &&
        !truthyNum params.size

/-! ## Build status and the NodeStatus component -/

/-- The `BuildStatus` enum.  Its declaration (`constants/enums`) is not
under `src/`; the members are reconstructed from their uses in the sources:
`BUILT`, `TO_BUILD`, `BUILDING` and `INACTIVE` appear in `NodeStatus`, and
`BUILDING`, `BUILT` and `ERROR` appear in the `flow.build.progress` handler
of `VoiceAssistant` (AssemblyAI.jsx). -/
inductive BuildStatus where
  | BUILDING
  | BUILT
  | TO_BUILD
  | ERROR
  | INACTIVE
  deriving DecidableEq, Repr

/-- The `data` field of a `VertexBuildTypeAPI` validation result; only
`duration` is read by `NodeStatus`. -/
structure VertexBuildData where
  duration : Option String
  deriving DecidableEq, Repr

/-- The validation status held by `NodeStatus` (`VertexBuildTypeAPI`),
restricted to the fields it reads. -/
structure VertexBuild where
  valid : Bool
  data : VertexBuildData
  deriving DecidableEq, Repr

/-- `conditionSuccess` of `NodeStatus`: built, or neither absent nor
`TO_BUILD` with a valid validation status.  `buildStatus` is `Option`al
because the source guards with `!buildStatus`. -/
def conditionSuccess (buildStatus : Option BuildStatus)
    (validationStatus : Option VertexBuild) : Bool :=
  buildStatus == some BuildStatus.BUILT ||
    (!(buildStatus == none || buildStatus == some BuildStatus.TO_BUILD) &&
      (validationStatus.map (fun v => v.valid)).getD false)

/-- The four shapes the status tooltip of `NodeStatus` can take. -/
inductive StatusTooltip where
  | building
  | inactive
  | build
  | details (validationString : String) (lastRunTime : Option String)
      (duration : Option String)
  deriving DecidableEq, Repr

/-- The tooltip content chain of `NodeStatus`: `STATUS_BUILDING` when
building, `STATUS_INACTIVE` when inactive, `STATUS_BUILD` when there is no
validation status yet, and the validation/run-time details otherwise. -/
def statusTooltip (buildStatus : BuildStatus)
    (validationStatus : Option VertexBuild) (validationString : String)
    (lastRunTime : Option String) : StatusTooltip :=
  if buildStatus = BuildStatus.BUILDING then StatusTooltip.building
  else if buildStatus = BuildStatus.INACTIVE then StatusTooltip.inactive
  else
    match validationStatus with
    | none => StatusTooltip.build
    | some v =>
        StatusTooltip.details validationString lastRunTime v.data.duration

/-- The node class stored in a node's data (`APIClassType`): `lf_version` is
the one field the status effect writes; the remaining fields read by the
surrounding code are carried to witness that they are untouched. -/
structure NodeClass where
  display_name : String
  template : List (String × String)
  lf_version : Option String
  deriving DecidableEq, Repr

/-- A node's `data` record (`NodeDataType`). -/
structure NodeData where
  id : String
  type : String
  node : NodeClass
  deriving DecidableEq, Repr

/-- A flow node as stored in the flow store. -/
structure FlowNode where
  id : String
  position : Int × Int
  data : NodeData
  deriving DecidableEq, Repr

/-- The updater passed to `setNode` by the `NodeStatus` effect: spreads the
old node and overwrites `data.node.lf_version` with the current version. -/
def lfVersionUpdate (version : String) (old : FlowNode) : FlowNode :=
  { old with
    data := { old.data with
      node := { old.data.node with lf_version := some version } } }

/-- The `useEffect` of `NodeStatus` keyed on `[buildStatus, isBuilding]`:
when the status is `BUILT` and no build is running it calls `setNode` with
`lfVersionUpdate`; otherwise it leaves the node alone. -/
def nodeStatusEffect (buildStatus : BuildStatus) (isBuilding : Bool)
    (version : String) (old : FlowNode) : FlowNode :=
  if buildStatus = BuildStatus.BUILT && !isBuilding then
    lfVersionUpdate version old
  else old

/-! ## Request handlers: refresh-flows, post-folders, delete-folder -/

/-- Outcome of one awaited API request: the resolved payload, or a
rejection. -/
inductive ReqResult (α : Type) where
  | ok (val : α)
  | failed
  deriving DecidableEq, Repr

/-- The alert store slice written by the handlers under study. -/
structure AlertStore where
  errorTitle : Option String
  successTitle : Option String
  deriving DecidableEq, Repr

/-- `setErrorData` with a title. -/
def setErrorData (title : String) (st : AlertStore) : AlertStore :=
  { st with errorTitle := some title }

/-- `setSuccessData` with a title. -/
def setSuccessData (title : String) (st : AlertStore) : AlertStore :=
  { st with successTitle := some title }

/-- A flow DTO, reduced to identifying fields: the handlers under study move
flows between payloads and stores without reading their contents. -/
structure Flow where
  id : String
  name : String
  deriving DecidableEq, Repr

/-- A paginated flows response (`PaginatedFlowsType`). -/
structure PaginatedFlows where
  items : List Flow
  total : Nat
  page : Nat
  size : Nat
  deriving DecidableEq, Repr

/-- The payload of a flows fetch: a plain array, or a paginated object. -/
inductive FlowsPayload where
  | list (flows : List Flow)
  | paginated (pag : PaginatedFlows)
  deriving DecidableEq, Repr

/-- `Array.isArray(dbDataFlows) ? dbDataFlows : dbDataFlows.items`. -/
def flowsOf : FlowsPayload → List Flow
  | FlowsPayload.list flows => flows
  | FlowsPayload.paginated pag => pag.items

/-- The stores written by the refresh-flows mutation: the alert store, the
flows-manager `flows` slice, and the types-store `saved_components` entry. -/
structure RefreshStores where
  alert : AlertStore
  flows : Option (List Flow)
  savedComponents : Option (List Flow)
  deriving DecidableEq, Repr

/-- The `mutationFn` of `useGetRefreshFlows` as a function of the two request
outcomes.  `processFlowsData` stands for the composite
`processFlows(dbDataComponents as FlowType[]).data` (`processFlows` lives in
`utils/reactflowUtils`, outside `src/`, so the model takes it as a
parameter).  If either request rejects, the `catch` sets the error title and
the rejection is rethrown; on success the processed components are stored,
`setFlows` receives `flowsOf dbDataFlows`, and the function resolves with
`[]`. -/
def refreshFlowsMutationFn (processFlowsData : List Flow → List Flow)
    (flowsRes : ReqResult FlowsPayload) (componentsRes : ReqResult (List Flow))
    (st : RefreshStores) : ReqResult (List Flow) × RefreshStores :=
  match flowsRes with
  | ReqResult.failed =>
      (ReqResult.failed,
        { st with
          alert := setErrorData "Could not load flows from database" st.alert })
  | ReqResult.ok dbDataFlows =>
      match componentsRes with
      | ReqResult.failed =>
          (ReqResult.failed,
            { st with
              alert :=
                setErrorData "Could not load flows from database" st.alert })
      | ReqResult.ok dbDataComponents =>
          (ReqResult.ok [],
            { st with
              savedComponents := some (processFlowsData dbDataComponents),
              flows := some (flowsOf dbDataFlows) })

/-- The parameters of the second, components request of the refresh-flows
mutation: `{ components_only: true, get_all: true }`. -/
def componentsRequestParams : GetFlowsParams :=
  ⟨some true, some true, none, none, none, none, none⟩

/-- The flows requests issued by one run of the refresh-flows `mutationFn`:
the first `GET` always, and the components `GET` only if the first one
resolved (the rejection skips the `then` callback straight to the `catch`).
No request is ever reissued. -/
def refreshFlowsRequests (params : GetFlowsParams)
    (flowsRes : ReqResult FlowsPayload) : List GetFlowsParams :=
  match flowsRes with
  | ReqResult.failed => [params]
  | ReqResult.ok _ => [params, componentsRequestParams]

/-- The folder-creation input (`AddFolderType`): `flows` and `components`
are optional. -/
structure AddFolderInput where
  name : String
  description : String
  flows : Option (List String)
  components : Option (List String)
  deriving DecidableEq, Repr

/-- The POST payload built by `addFoldersFn` from its input. -/
structure AddFolderPayload where
  name : String
  description : String
  flows_list : List String
  components_list : List String
  deriving DecidableEq, Repr

/-- The payload construction of `addFoldersFn`: `flows ?? []` and
`components ?? []`. -/
def addFolderPayload (data : AddFolderInput) : AddFolderPayload :=
  ⟨data.name, data.description, data.flows.getD [], data.components.getD []⟩

/-- The stores touched by the folder handlers: the alert store and a flag
recording that `getFoldersApi(true)` was invoked to refresh the folder
list. -/
structure FolderStores where
  alert : AlertStore
  foldersRefreshed : Bool
  deriving DecidableEq, Repr

/-- `addFoldersFn` of `usePostFolders` as a function of the POST outcome:
the function body has no `try`/`catch` and never touches the alert store, so
a rejection propagates to the caller unchanged; on success it awaits
`getFoldersApi(true)` and resolves. -/
def addFoldersFn (postRes : ReqResult Unit) (st : FolderStores) :
    ReqResult Unit × FolderStores :=
  match postRes with
  | ReqResult.failed => (ReqResult.failed, st)
  | ReqResult.ok _ => (ReqResult.ok (), { st with foldersRefreshed := true })

/-- `handleDeleteFolder` of the collection page as a function of the DELETE
outcome: `onSuccess` sets the success title and navigates to `/all`;
`onError` logs and sets the error title.  The second component is the
navigation target, if any. -/
def handleDeleteFolder (deleteRes : ReqResult Unit) (alert : AlertStore) :
    AlertStore × Option String :=
  match deleteRes with
  | ReqResult.ok _ =>
      (setSuccessData "Folder deleted successfully." alert, some "/all")
  | ReqResult.failed =>
      (setErrorData "Error deleting folder." alert, none)

/-! ## Slider parameter widget (SliderComponent) -/

/-- A `rangeSpec` for a numeric parameter (`RangeSpecType`).  Number values
are embedded as rationals: the claims under study are order/clamping facts,
which the rational embedding preserves. -/
structure RangeSpec where
  minValue : ℚ
  maxValue : ℚ
  step : ℚ
  deriving DecidableEq, Repr

/-- `const min = rangeSpec?.min ?? -2`. -/
def sliderMin (rangeSpec : Option RangeSpec) : ℚ :=
  (rangeSpec.map RangeSpec.minValue).getD (-2)

/-- `const max = rangeSpec?.max ?? 2`. -/
def sliderMax (rangeSpec : Option RangeSpec) : ℚ :=
  (rangeSpec.map RangeSpec.maxValue).getD 2

/-- Modelled from the spec: `getMinOrMaxValue` is imported by
`SliderComponent` from `utils/get-min-max-value`, which is not under `src/`;
per its name and its use to bound the displayed slider value, it clamps the
value into the closed interval `[minValue, maxValue]`. -/
def getMinOrMaxValue (value minValue maxValue : ℚ) : ℚ :=
  if value < minValue then minValue
  else if maxValue < value then maxValue
  else value

/-- `const valueAsNumber = getMinOrMaxValue(Number(value), min, max)`: the
value the component displays and feeds to the slider primitive. -/
def valueAsNumber (value : ℚ) (rangeSpec : Option RangeSpec) : ℚ :=
  getMinOrMaxValue value (sliderMin rangeSpec) (sliderMax rangeSpec)

/-- `handleInputBlur`: `parseFloat` of the text field is represented by an
`Option` (`none` when the text does not parse, so `isNaN` holds and nothing
is committed); a parsed value is committed as
`Math.min(Math.max(newValue, min), max)`.  The result is the committed
value: the stored one when nothing is committed. -/
def handleInputBlur (rangeSpec : Option RangeSpec) (parsed : Option ℚ)
    (stored : ℚ) : ℚ :=
  match parsed with
  | none => stored
  | some newValue =>
      min (max newValue (sliderMin rangeSpec)) (sliderMax rangeSpec)

/-! ## WebSocket message handling (VoiceAssistant, AssemblyAI.jsx) -/

/-- The `data.part` object of a `response.content_part.added` message: the
handler reads `data.part?.type` and `data.part.text`.  An absent `text`
field is embedded as `""` (both are falsy, and the text is only consumed
when truthy). -/
structure WsPart where
  type : String
  text : String
  deriving DecidableEq, Repr

/-- The `data.data` object of a `flow.build.progress` message: the inner
switch key `event`, and the `vertex_id`/`run_id` fields the vertex branches
read. -/
structure WsBuildData where
  event : String
  vertex_id : String
  run_id : String
  deriving DecidableEq, Repr

/-- A parsed WebSocket message (`JSON.parse(event.data)`), restricted to the
fields `handleWebSocketMessage` reads.  `part` and `data` are `Option`al
objects (`data.part` is optional-chained; `data.data` is read unguarded);
the string fields `delta`, `error` and `code` embed an absent field as `""`
(falsy, like `undefined`, everywhere they are tested). -/
structure WsMessage where
  type : String
  part : Option WsPart
  delta : String
  data : Option WsBuildData
  error : String
  code : String
  deriving DecidableEq, Repr

/-- The store/state effect of one `handleWebSocketMessage` invocation, one
constructor per case arm: `appendMessage` is `setMessage(prev + text)`;
`enqueueAudio` decodes and queues the audio delta; `buildStart` is
`setIsBuilding(true)` and `setLockChat(true)`; `buildStartVertex` is
`updateBuildStatus([vertex_id], BuildStatus.BUILDING)` plus the running-edge
animation; `buildEndVertex` is `updateBuildStatus([vertex_id],
BuildStatus.BUILT)` plus `addDataToFlowPool` with the given `run_id`;
`buildError` is `updateBuildStatus([vertex_id], BuildStatus.ERROR)`;
`buildEnd` unlocks the chat and clears the building state; `addMessage`
forwards `buildData.data` to the messages store; `serverError` sets the
status text and, when the code is `api_key_missing`, opens the API-key
modal; `crash` marks the `TypeError` thrown when a `flow.build.progress`
message has no `data` object; `noop` is a fall-through. -/
inductive WsAction where
  | appendMessage (text : String)
  | enqueueAudio (delta : String)
  | buildStart
  | buildStartVertex (vertex_id : String)
  | buildEndVertex (vertex_id : String) (run_id : String)
  | buildError (vertex_id : String)
  | buildEnd
  | addMessage
  | serverError (error : String) (apiKeyModal : Bool)
  | crash
  | noop
  deriving DecidableEq, Repr

/-- The inner `switch (buildData.event)` of the `flow.build.progress` case:
start, start_vertex, end_vertex, error, end and add_message, with no
default arm. -/
def handleBuildEvent (buildData : WsBuildData) : WsAction :=
  if buildData.event = "start" then WsAction.buildStart
  else if buildData.event = "start_vertex" then
    WsAction.buildStartVertex buildData.vertex_id
  else if buildData.event = "end_vertex" then
    WsAction.buildEndVertex buildData.vertex_id buildData.run_id
  else if buildData.event = "error" then
    WsAction.buildError buildData.vertex_id
  else if buildData.event = "end" then WsAction.buildEnd
  else if buildData.event = "add_message" then WsAction.addMessage
  else WsAction.noop

/-- `handleWebSocketMessage` of `VoiceAssistant`: the outer
`switch (data.type)` over `response.content_part.added` (guarded on
`data.part?.type === "text" && data.part.text`), `response.audio.delta`
(guarded on `data.delta` and the live audio context, here the
`audioContext` flag), `flow.build.progress` (delegating to the inner event
switch; reading `data.data.event` throws when `data.data` is absent) and
`error`; any other type falls through the switch. -/
def handleWebSocketMessage (audioContext : Bool) (msg : WsMessage) :
    WsAction :=
  if msg.type = "response.content_part.added" then
    match msg.part with
    | some part =>
        if part.type = "text" && part.text ≠ "" then
          WsAction.appendMessage part.text
        else WsAction.noop
    | none => WsAction.noop
  else if msg.type = "response.audio.delta" then
    if msg.delta ≠ "" && audioContext then WsAction.enqueueAudio msg.delta
    else WsAction.noop
  else if msg.type = "flow.build.progress" then
    match msg.data with
    | some buildData => handleBuildEvent buildData
    | none => WsAction.crash
  else if msg.type = "error" then
    WsAction.serverError msg.error (msg.code == "api_key_missing")
  else WsAction.noop

/-- The case arm of `handleWebSocketMessage` selected for a message: the
label of the outer `switch (data.type)`, refined for `flow.build.progress`
by the key of the inner `switch (buildData.event)`. -/
inductive WsBranch where
  | contentPartAdded
  | audioDelta
  | buildProgress (event : Option String)
  | serverError
  | unhandled
  deriving DecidableEq, Repr

/-- The branch selection of `handleWebSocketMessage`, read off the same
switch structure. -/
def wsCase (msg : WsMessage) : WsBranch :=
  if msg.type = "response.content_part.added" then WsBranch.contentPartAdded
  else if msg.type = "response.audio.delta" then WsBranch.audioDelta
  else if msg.type = "flow.build.progress" then
    WsBranch.buildProgress (msg.data.map WsBuildData.event)
  else if msg.type = "error" then WsBranch.serverError
  else WsBranch.unhandled

/-- The `type`/`event` discriminator pair of a message: the top-level
`type` field, and the `event` field of the nested build data when that
object is present. -/
def wsDiscriminator (msg : WsMessage) : String × Option String :=
  (msg.type, msg.data.map WsBuildData.event)

/-! ## Theorems -/

/-- C3 counterexample: with the chat unlocked, no input requested from the
user set, and one attached file still uploading, `showStopButton` and
`showPlayButton` are both true, so the stop and the play icon are both
rendered — the three conditions are not mutually exclusive. -/
theorem c3_two_icons_rendered :
    showStopButton ⟨false, true, "", [⟨true⟩]⟩ = true ∧
      showPlayButton ⟨false, true, "", [⟨true⟩]⟩ = true ∧
        (renderedIcons ⟨false, true, "", [⟨true⟩]⟩).length = 2 := by
  decide

/-- C3 (amended): exactly one of `showStopButton`, `showPlayButton` and
`showSendButton` is true — and exactly one icon is rendered — for every
combination of `lockChat`, `noInput` and the per-file loading flags, except
when `lockChat` is false, `noInput` is true and some file is loading: there
the stop and the play conditions hold together and both icons are
rendered. -/
theorem c3_icon_conditions (p : ButtonSendProps) :
    (((showStopButton p).toNat + (showPlayButton p).toNat +
            (showSendButton p).toNat = 1 ∧
          (renderedIcons p).length = 1) ↔
        ¬(p.lockChat = false ∧ p.noInput = true ∧
          anyLoading p.files = true)) ∧
      (p.lockChat = false ∧ p.noInput = true ∧ anyLoading p.files = true →
        showStopButton p = true ∧ showPlayButton p = true ∧
          showSendButton p = false ∧
            renderedIcons p = [ChatIcon.square, ChatIcon.zap]) := by
  obtain ⟨lock, noInp, chat, files⟩ := p
  cases lock <;> cases noInp <;> cases h : anyLoading files <;>
    simp [showStopButton, showPlayButton, showSendButton, renderedIcons, h]

/-- C3 witness: with the chat locked, exactly one icon is rendered. -/
theorem c3_icon_conditions_witness :
    (showStopButton ⟨true, false, "", []⟩).toNat +
        (showPlayButton ⟨true, false, "", []⟩).toNat +
          (showSendButton ⟨true, false, "", []⟩).toNat = 1 ∧
      (renderedIcons ⟨true, false, "", []⟩).length = 1 := by
  have h := c3_icon_conditions ⟨true, false, "", []⟩
  exact h.1.mpr (by decide)

/-- C6: `handleClick` results in `send()` exactly when the chat is not
locked and no attached file is loading; whenever the chat is locked or a
file is loading, the click results in `stopBuilding()` if a build is in
progress and in nothing otherwise. -/
theorem c6_handle_click_guard (p : ButtonSendProps) (isBuilding : Bool) :
    (handleClick p isBuilding = ClickAction.send ↔
        (p.lockChat = false ∧ anyLoading p.files = false)) ∧
      ((p.lockChat = true ∨ anyLoading p.files = true) →
        handleClick p isBuilding =
          (if isBuilding then ClickAction.stopBuilding else ClickAction.noop)) := by
  obtain ⟨lock, noInp, chat, files⟩ := p
  cases lock <;> cases isBuilding <;> cases h : anyLoading files <;>
    simp [handleClick, showStopButton, h]

/-- C6 witness: with the chat unlocked and no file loading the click sends;
with the chat locked during a build it stops the build. -/
theorem c6_handle_click_guard_witness :
    handleClick ⟨false, false, "hi", []⟩ false = ClickAction.send ∧
      handleClick ⟨true, false, "hi", []⟩ true = ClickAction.stopBuilding := by
  have h1 := c6_handle_click_guard ⟨false, false, "hi", []⟩ false
  have h2 := c6_handle_click_guard ⟨true, false, "hi", []⟩ true
  exact ⟨h1.1.mpr (by decide), by simpa using h2.2 (Or.inl rfl)⟩

/-- C5 counterexample: the build status is not confined to building, built
and error — `INACTIVE` is a further status, rendered with its own tooltip
by `NodeStatus`, and `TO_BUILD` is a further status that `conditionSuccess`
explicitly excludes even when the validation result is valid. -/
theorem c5_more_than_three_statuses :
    (¬ ∀ s : BuildStatus,
        s = BuildStatus.BUILDING ∨ s = BuildStatus.BUILT ∨
          s = BuildStatus.ERROR) ∧
      statusTooltip BuildStatus.INACTIVE none "" none =
          StatusTooltip.inactive ∧
        conditionSuccess (some BuildStatus.TO_BUILD) (some ⟨true, ⟨none⟩⟩) =
          false := by
  refine ⟨fun h => ?_, rfl, by decide⟩
  rcases h BuildStatus.INACTIVE with h1 | h1 | h1 <;> exact
    BuildStatus.noConfusion h1

/-- C5 (amended): the build status of a node is always one of the five
states `BUILDING`, `BUILT`, `TO_BUILD`, `ERROR` and `INACTIVE`. -/
theorem c5_build_status_five_states (s : BuildStatus) :
    s = BuildStatus.BUILDING ∨ s = BuildStatus.BUILT ∨
      s = BuildStatus.TO_BUILD ∨ s = BuildStatus.ERROR ∨
        s = BuildStatus.INACTIVE := by
  cases s <;> simp

/-- C2 counterexample: a build-status change does not leave the node's
stored data unchanged — when the status becomes `BUILT` while no build is
running, the `NodeStatus` effect rewrites the stored node, setting
`data.node.lf_version`. -/
theorem c2_built_status_mutates_node_data :
    nodeStatusEffect BuildStatus.BUILT false "1.1.0"
        ⟨"node-1", (0, 0), ⟨"node-1", "CustomComponent", ⟨"My Node", [], none⟩⟩⟩ ≠
      ⟨"node-1", (0, 0), ⟨"node-1", "CustomComponent", ⟨"My Node", [], none⟩⟩⟩ := by
  decide

/-- C2 (amended): a build-status change leaves the node's stored data
unchanged except when the status is `BUILT` while no build is running,
where exactly the `lf_version` field of `data.node` is set to the current
version; every other stored field (id, position, data id, data type,
display name, template) is unchanged by the status change in all cases. -/
theorem c2_status_effect_frame (s : BuildStatus) (b : Bool) (v : String)
    (old : FlowNode) :
    (¬(s = BuildStatus.BUILT ∧ b = false) →
        nodeStatusEffect s b v old = old) ∧
      (nodeStatusEffect s b v old).id = old.id ∧
        (nodeStatusEffect s b v old).position = old.position ∧
          (nodeStatusEffect s b v old).data.id = old.data.id ∧
            (nodeStatusEffect s b v old).data.type = old.data.type ∧
              (nodeStatusEffect s b v old).data.node.display_name =
                  old.data.node.display_name ∧
                (nodeStatusEffect s b v old).data.node.template =
                    old.data.node.template ∧
                  (s = BuildStatus.BUILT ∧ b = false →
                    (nodeStatusEffect s b v old).data.node.lf_version =
                      some v) := by
  cases s <;> cases b <;>
    simp [nodeStatusEffect, lfVersionUpdate]

/-- C2 witness: a `BUILDING` status change leaves a concrete node
untouched, and a `BUILT` status change with no build running sets its
`lf_version`. -/
theorem c2_status_effect_frame_witness :
    nodeStatusEffect BuildStatus.BUILDING true "1.1.0"
        ⟨"n", (1, 2), ⟨"n", "Prompt", ⟨"Prompt", [], none⟩⟩⟩ =
        ⟨"n", (1, 2), ⟨"n", "Prompt", ⟨"Prompt", [], none⟩⟩⟩ ∧
      (nodeStatusEffect BuildStatus.BUILT false "1.1.0"
            ⟨"n", (1, 2), ⟨"n", "Prompt", ⟨"Prompt", [], none⟩⟩⟩).data.node.lf_version =
        some "1.1.0" := by
  have h1 := c2_status_effect_frame BuildStatus.BUILDING true "1.1.0"
    ⟨"n", (1, 2), ⟨"n", "Prompt", ⟨"Prompt", [], none⟩⟩⟩
  have h2 := c2_status_effect_frame BuildStatus.BUILT false "1.1.0"
    ⟨"n", (1, 2), ⟨"n", "Prompt", ⟨"Prompt", [], none⟩⟩⟩
  exact ⟨h1.1 (by decide), h2.2.2.2.2.2.2.2 ⟨rfl, rfl⟩⟩

/-- Membership of a key in the key list of one conditional `append`
segment. -/
theorem mem_map_fst_ite (k kj v : String) (t : Bool) :
    (k ∈ (if t then [(kj, v)] else []).map Prod.fst) ↔ (t = true ∧ k = kj) := by
  cases t <;> simp

/-- C4: `addQueryParams` appends the query parameter of a `GetFlowsParams`
field if and only if that field is truthy; `page` and `size` equal to `0`
are never appended; and when no field is truthy the base URL is returned
unchanged, with no trailing question mark. -/
theorem c4_add_query_params_truthy (url : String) (params : GetFlowsParams) :
    (("components_only" ∈ paramKeys params) ↔
        truthyBool params.components_only = true) ∧
      (("get_all" ∈ paramKeys params) ↔ truthyBool params.get_all = true) ∧
        (("header_flows" ∈ paramKeys params) ↔
            truthyBool params.header_flows = true) ∧
          (("folder_id" ∈ paramKeys params) ↔
              truthyStr params.folder_id = true) ∧
            (("remove_example_flows" ∈ paramKeys params) ↔
                truthyBool params.remove_example_flows = true) ∧
              (("page" ∈ paramKeys params) ↔ truthyNum params.page = true) ∧
                (("size" ∈ paramKeys params) ↔ truthyNum params.size = true) ∧
                  (params.page = some 0 → "page" ∉ paramKeys params) ∧
                    (params.size = some 0 → "size" ∉ paramKeys params) ∧
                      (noTruthyField params = true →
                        addQueryParams url params = url) := by
  have hkeys : ∀ k : String, (k ∈ paramKeys params) ↔
      ((truthyBool params.components_only = true ∧ k = "components_only") ∨
        (truthyBool params.get_all = true ∧ k = "get_all") ∨
          (truthyBool params.header_flows = true ∧ k = "header_flows") ∨
            (truthyStr params.folder_id = true ∧ k = "folder_id") ∨
              (truthyBool params.remove_example_flows = true ∧
                  k = "remove_example_flows") ∨
                (truthyNum params.page = true ∧ k = "page") ∨
                  (truthyNum params.size = true ∧ k = "size")) := by
    intro k
    simp [paramKeys, addQueryParamsPairs, List.map_append, List.mem_append,
      mem_map_fst_ite]
  refine ⟨?_, ?_, ?_, ?_, ?_, ?_, ?_, ?_, ?_, ?_⟩
  · rw [hkeys]; simp
  · rw [hkeys]; simp
  · rw [hkeys]; simp
  · rw [hkeys]; simp
  · rw [hkeys]; simp
  · rw [hkeys]; simp
  · rw [hkeys]; simp
  · intro hp
    rw [hkeys]
    simp [truthyNum, hp]
  · intro hs
    rw [hkeys]
    simp [truthyNum, hs]
  · intro hno
    simp [noTruthyField] at hno
    obtain ⟨⟨⟨⟨⟨⟨h1, h2⟩, h3⟩, h4⟩, h5⟩, h6⟩, h7⟩ := hno
    simp [addQueryParams, addQueryParamsPairs, queryPairsToString,
      h1, h2, h3, h4, h5, h6, h7]
    exact fun h => absurd rfl h

/-- C4 witness: with every field absent the base flows URL is returned
unchanged, and with `page` and `size` set to `0` neither is appended. -/
theorem c4_add_query_params_truthy_witness :
    addQueryParams "/api/v1/flows/"
        ⟨none, none, none, none, none, none, none⟩ = "/api/v1/flows/" ∧
      "page" ∉ paramKeys ⟨none, none, none, none, none, some 0, some 0⟩ ∧
        "size" ∉ paramKeys ⟨none, none, none, none, none, some 0, some 0⟩ := by
  have h1 := c4_add_query_params_truthy "/api/v1/flows/"
    ⟨none, none, none, none, none, none, none⟩
  have h2 := c4_add_query_params_truthy "/api/v1/flows/"
    ⟨none, none, none, none, none, some 0, some 0⟩
  exact ⟨h1.2.2.2.2.2.2.2.2.2 (by decide),
    h2.2.2.2.2.2.2.2.1 rfl, h2.2.2.2.2.2.2.2.2.1 rfl⟩

/-- C1 counterexample: a rejected folder-creation POST does not become
alert state — `addFoldersFn` has no catch, leaves the alert store without
an error title, and lets the rejection escape to its caller. -/
theorem c1_post_folders_failure_sets_no_alert :
    addFoldersFn ReqResult.failed ⟨⟨none, none⟩, false⟩ =
        (ReqResult.failed, ⟨⟨none, none⟩, false⟩) ∧
      (addFoldersFn ReqResult.failed ⟨⟨none, none⟩, false⟩).2.alert.errorTitle =
        none := by
  exact ⟨rfl, rfl⟩

/-- C1 (amended): the refresh-flows mutation turns a rejection of either of
its requests into the alert-store error title `Could not load flows from
database` and never reissues a request (one request on a first-fetch
failure, two at most overall); the delete-folder handler turns a rejection
into the error title `Error deleting folder.` and a success into the
success title `Folder deleted successfully.`; the post-folders mutation,
however, propagates a rejection to its caller with the stores untouched,
so no error title is set there. -/
theorem c1_failure_alerts (procFn : List Flow → List Flow)
    (params : GetFlowsParams) (flowsRes : ReqResult FlowsPayload)
    (componentsRes : ReqResult (List Flow)) (st : RefreshStores)
    (deleteRes : ReqResult Unit) (alert : AlertStore)
    (postRes : ReqResult Unit) (fst : FolderStores) :
    (flowsRes = ReqResult.failed →
        (refreshFlowsMutationFn procFn flowsRes componentsRes st).2.alert.errorTitle =
            some "Could not load flows from database" ∧
          refreshFlowsRequests params flowsRes = [params]) ∧
      (componentsRes = ReqResult.failed →
          (refreshFlowsMutationFn procFn flowsRes componentsRes st).2.alert.errorTitle =
            some "Could not load flows from database") ∧
        (refreshFlowsRequests params flowsRes).length ≤ 2 ∧
          (deleteRes = ReqResult.failed →
              (handleDeleteFolder deleteRes alert).1.errorTitle =
                some "Error deleting folder.") ∧
            (deleteRes = ReqResult.ok () →
                (handleDeleteFolder deleteRes alert).1.successTitle =
                  some "Folder deleted successfully.") ∧
              (postRes = ReqResult.failed →
                addFoldersFn postRes fst = (ReqResult.failed, fst)) := by
  cases flowsRes <;> cases componentsRes <;> cases deleteRes <;>
    cases postRes <;>
      simp [refreshFlowsMutationFn, refreshFlowsRequests, handleDeleteFolder,
        addFoldersFn, setErrorData, setSuccessData]

/-- C1 witness: at concrete failing requests the refresh-flows and
delete-folder alert titles are set, and the post-folders stores are
untouched. -/
theorem c1_failure_alerts_witness :
    (refreshFlowsMutationFn (fun l => l) ReqResult.failed ReqResult.failed
          ⟨⟨none, none⟩, none, none⟩).2.alert.errorTitle =
        some "Could not load flows from database" ∧
      (handleDeleteFolder ReqResult.failed ⟨none, none⟩).1.errorTitle =
          some "Error deleting folder." ∧
        addFoldersFn ReqResult.failed ⟨⟨none, none⟩, true⟩ =
          (ReqResult.failed, ⟨⟨none, none⟩, true⟩) := by
  have h := c1_failure_alerts (fun l => l)
    ⟨none, none, none, none, none, none, none⟩ ReqResult.failed
    ReqResult.failed ⟨⟨none, none⟩, none, none⟩ ReqResult.failed
    ⟨none, none⟩ ReqResult.failed ⟨⟨none, none⟩, true⟩
  exact ⟨(h.1 rfl).1, h.2.2.2.1 rfl, h.2.2.2.2.2 rfl⟩

/-- C8 counterexample: on a successful paginated flows fetch the flows
store receives the `items` field, not the fetched payload — a client-side
unwrapping applied before storage. -/
theorem c8_paginated_payload_unwrapped :
    (refreshFlowsMutationFn (fun l => l)
          (ReqResult.ok
            (FlowsPayload.paginated ⟨[⟨"f1", "Flow 1"⟩], 1, 1, 10⟩))
          (ReqResult.ok []) ⟨⟨none, none⟩, none, none⟩).2.flows =
        some [⟨"f1", "Flow 1"⟩] ∧
      FlowsPayload.list [⟨"f1", "Flow 1"⟩] ≠
        FlowsPayload.paginated ⟨[⟨"f1", "Flow 1"⟩], 1, 1, 10⟩ := by
  exact ⟨rfl, by decide⟩

/-- C8 (amended): on a successful fetch the flows store receives the
payload itself only when the payload is a plain array; a paginated payload
is unwrapped to its `items` field before storage, and the saved-components
payload is passed through `processFlows` before its `data` lands in the
types store. -/
theorem c8_store_contents (procFn : List Flow → List Flow)
    (payload : FlowsPayload) (comps : List Flow) (st : RefreshStores) :
    (refreshFlowsMutationFn procFn (ReqResult.ok payload)
          (ReqResult.ok comps) st).2.flows = some (flowsOf payload) ∧
      (refreshFlowsMutationFn procFn (ReqResult.ok payload)
            (ReqResult.ok comps) st).2.savedComponents =
          some (procFn comps) ∧
        (∀ flows : List Flow, flowsOf (FlowsPayload.list flows) = flows) ∧
          (∀ pag : PaginatedFlows,
            flowsOf (FlowsPayload.paginated pag) = pag.items) := by
  exact ⟨rfl, rfl, fun flows => rfl, fun pag => rfl⟩

/-- C7: the value the slider displays is clamped into `[min, max]`, with
`min` defaulting to `-2` and `max` to `2` when `rangeSpec` is absent; on
blur, an unparseable input leaves the stored value unchanged, and a parsed
value is committed min/max-clamped. -/
theorem c7_slider_clamp (rangeSpec : Option RangeSpec)
    (value stored commit : ℚ)
    (h : sliderMin rangeSpec ≤ sliderMax rangeSpec) :
    sliderMin none = -2 ∧ sliderMax none = 2 ∧
      sliderMin rangeSpec ≤ valueAsNumber value rangeSpec ∧
        valueAsNumber value rangeSpec ≤ sliderMax rangeSpec ∧
          handleInputBlur rangeSpec none stored = stored ∧
            sliderMin rangeSpec ≤
                handleInputBlur rangeSpec (some commit) stored ∧
              handleInputBlur rangeSpec (some commit) stored ≤
                sliderMax rangeSpec := by
  refine ⟨rfl, rfl, ?_, ?_, rfl, ?_, ?_⟩
  · unfold valueAsNumber getMinOrMaxValue
    split_ifs <;> linarith
  · unfold valueAsNumber getMinOrMaxValue
    split_ifs <;> linarith
  · exact le_min (le_max_right _ _) h
  · exact min_le_right _ _

/-- C7 witness: with no `rangeSpec` the displayed value of `-7` is clamped
into `[-2, 2]`, an unparseable blur leaves the stored `0` in place, and a
parsed `5` is committed within the bounds. -/
theorem c7_slider_clamp_witness :
    sliderMin none ≤ valueAsNumber (-7) none ∧
      valueAsNumber (-7) none ≤ sliderMax none ∧
        handleInputBlur none none 0 = 0 ∧
          sliderMin none ≤ handleInputBlur none (some 5) 0 ∧
            handleInputBlur none (some 5) 0 ≤ sliderMax none := by
  have h := c7_slider_clamp none (-7) 0 5
    (by norm_num [sliderMin, sliderMax])
  exact ⟨h.2.2.1, h.2.2.2.1, h.2.2.2.2.1, h.2.2.2.2.2.1, h.2.2.2.2.2.2⟩

/-- C10: the one WebSocket handler `handleWebSocketMessage` receives both
the voice/streaming-chat messages (`response.content_part.added`,
`response.audio.delta`) and the flow-build progress messages
(`flow.build.progress`, inner events routed by `buildData.event`), all as
parsed JSON, and the branch a message is dispatched to is determined by its
`type`/`event` discriminator pair: two messages with equal discriminators
select the same branch, each discriminator value selects the branch listed,
an unhandled type falls through to no action, and a build message is
handled entirely by the inner event switch on its build data. -/
theorem c10_ws_dispatch_by_discriminator (audioContext : Bool)
    (m1 m2 msg : WsMessage) :
    (wsDiscriminator m1 = wsDiscriminator m2 → wsCase m1 = wsCase m2) ∧
      (msg.type = "response.content_part.added" →
          wsCase msg = WsBranch.contentPartAdded) ∧
        (msg.type = "response.audio.delta" →
            wsCase msg = WsBranch.audioDelta) ∧
          (msg.type = "flow.build.progress" →
              wsCase msg =
                WsBranch.buildProgress (msg.data.map WsBuildData.event)) ∧
            (msg.type = "error" → wsCase msg = WsBranch.serverError) ∧
              (wsCase msg = WsBranch.unhandled →
                  handleWebSocketMessage audioContext msg = WsAction.noop) ∧
                (∀ bd : WsBuildData, msg.type = "flow.build.progress" →
                  msg.data = some bd →
                    handleWebSocketMessage audioContext msg =
                      handleBuildEvent bd) := by
  refine ⟨fun h => ?_, fun h => ?_, fun h => ?_, fun h => ?_, fun h => ?_,
    fun h => ?_, fun bd h1 h2 => ?_⟩
  · have ht : m1.type = m2.type := congrArg Prod.fst h
    have he : m1.data.map WsBuildData.event = m2.data.map WsBuildData.event :=
      congrArg Prod.snd h
    simp only [wsCase]
    rw [ht, he]
  · simp [wsCase, h]
  · simp [wsCase, h]
  · simp [wsCase, h]
  · simp [wsCase, h]
  · simp only [wsCase] at h
    simp only [handleWebSocketMessage]
    split_ifs at h ⊢
    all_goals simp_all
  · simp [handleWebSocketMessage, h1, h2]

/-- C10 witness: a build-start message selects the build-progress branch
and is handled by the inner event switch, and an audio-delta message
selects the audio branch. -/
theorem c10_ws_dispatch_by_discriminator_witness :
    wsCase ⟨"flow.build.progress", none, "", some ⟨"start", "", ""⟩, "", ""⟩ =
        WsBranch.buildProgress (some "start") ∧
      handleWebSocketMessage true
          ⟨"flow.build.progress", none, "", some ⟨"start", "", ""⟩, "", ""⟩ =
        handleBuildEvent ⟨"start", "", ""⟩ ∧
        wsCase ⟨"response.audio.delta", none, "abc", none, "", ""⟩ =
          WsBranch.audioDelta := by
  have h1 := c10_ws_dispatch_by_discriminator true
    ⟨"flow.build.progress", none, "", some ⟨"start", "", ""⟩, "", ""⟩
    ⟨"flow.build.progress", none, "", some ⟨"start", "", ""⟩, "", ""⟩
    ⟨"flow.build.progress", none, "", some ⟨"start", "", ""⟩, "", ""⟩
  have h2 := c10_ws_dispatch_by_discriminator true
    ⟨"response.audio.delta", none, "abc", none, "", ""⟩
    ⟨"response.audio.delta", none, "abc", none, "", ""⟩
    ⟨"response.audio.delta", none, "abc", none, "", ""⟩
  exact ⟨h1.2.2.2.1 rfl, h1.2.2.2.2.2.2 ⟨"start", "", ""⟩ rfl rfl,
    h2.2.2.1 rfl⟩

end Langflow
